import Mathlib

/-
Verification of the institute CRUD read API (main.py, schemas.py) against its
natural-language specification.  The document store adapter (database.py) is
not part of the sources; where its behaviour matters it is modelled from the
spec, as indicated in the doc comments.
-/

set_option maxRecDepth 4000

/-- Values a document field can hold: strings, integers, dates (as integer
day ordinals), lists of strings, and the null that serializes a Python None. -/
inductive Value where
  | str (s : String)
  | int (n : Int)
  | date (d : Int)
  | strList (l : List String)
  | null
deriving DecidableEq

/-- A raw document: an association list of field names to values, in
insertion order. -/
abbrev Doc := List (String × Value)

/-- Field lookup in a raw document (first occurrence wins). -/
def docGet : Doc → String → Option Value
  | [], _ => Option.none
  | (k, v) :: rest, key => if k = key then some v else docGet rest key

/-- The code of d.get(key, "") in list_pyqs: a missing or non-string field
reads as the empty string. -/
def docGetStrD (d : Doc) (k : String) : String :=
  match docGet d k with
  | some (Value.str s) => s
  | _ => ""

/-- Whether a document carries a field of the given name. -/
def hasKey : Doc → String → Bool
  | [], _ => false
  | (k, _) :: rest, key => decide (k = key) || hasKey rest key

/-- The storage metadata keys every endpoint strips, as listed in main.py. -/
def metaKeys : List String := ["_id", "created_at", "updated_at"]

/-- The per-document key strip from the endpoints of main.py:
keep exactly the pairs whose key is not a storage metadata key. -/
def stripMeta (d : Doc) : Doc :=
  d.filter (fun kv => !(metaKeys.contains kv.1))

/-- Exact-match document filter semantics: every key of the filter must be
present in the document with exactly the filter's value. -/
def matchesFilter (f : Doc) (d : Doc) : Bool :=
  f.all (fun kv => decide (docGet d kv.1 = some kv.2))

/-- Python string truthiness: a string is truthy when it is non-empty. -/
def strNonEmpty (s : String) : Bool := decide (s ≠ "")

/-- Lowercasing of one character, the A-Z mapping of Char.toLower. -/
def lowerChar (c : Char) : Char :=
  if 65 ≤ c.toNat ∧ c.toNat ≤ 90 then Char.ofNat (c.toNat + 32) else c

/-- Python str.lower, structurally over the character list. -/
def strLower (s : String) : String := String.mk (s.data.map lowerChar)

/-- needle is a leading segment of hay (character lists). -/
def leadSeg : List Char → List Char → Bool
  | [], _ => true
  | _ :: _, [] => false
  | a :: as, b :: bs => (a == b) && leadSeg as bs

/-- needle occurs contiguously inside hay (character lists), the semantics
of the Python expression needle in hay on strings. -/
def listContains (needle : List Char) : List Char → Bool
  | [] => needle.isEmpty
  | b :: bs => leadSeg needle (b :: bs) || listContains needle bs

/-- Python substring membership on strings. -/
def strIn (needle hay : String) : Bool := listContains needle.toList hay.toList

/-- The five collections of the persisted layout. -/
structure Store where
  program : List Doc
  faculty : List Doc
  event : List Doc
  admission : List Doc
  pyq : List Doc
deriving DecidableEq

def emptyStore : Store := ⟨[], [], [], [], []⟩

/-- The documents of a named collection. -/
def Store.get (s : Store) (c : String) : List Doc :=
  if c = "program" then s.program
  else if c = "faculty" then s.faculty
  else if c = "event" then s.event
  else if c = "admission" then s.admission
  else if c = "pyq" then s.pyq
  else []

/-- Replace the documents of a named collection. -/
def Store.put (s : Store) (c : String) (l : List Doc) : Store :=
  if c = "program" then { s with program := l }
  else if c = "faculty" then { s with faculty := l }
  else if c = "event" then { s with event := l }
  else if c = "admission" then { s with admission := l }
  else if c = "pyq" then { s with pyq := l }
  else s

/-- The storage metadata fields the adapter attaches on write. -/
def metaDoc (n : Nat) : Doc :=
  [("_id", Value.int (n : Int)), ("created_at", Value.int 0), ("updated_at", Value.int 0)]

/-- Modelled from the spec: insertOne of the document store adapter
(database.create_document, not under src).  It persists the record's fields
and attaches the storage metadata fields at the end of the collection. -/
def create_document (s : Store) (c : String) (d : Doc) : Store :=
  s.put c (s.get c ++ [d ++ metaDoc (s.get c).length])

/-- Modelled from the spec: findMany of the document store adapter
(database.get_documents, not under src).  With no configured store it
returns the empty sequence; otherwise the documents of the collection
matching the exact-match filter, in insertion order. -/
def get_documents (db : Option Store) (c : String) (f : Doc) : List Doc :=
  match db with
  | Option.none => []
  | some s => (s.get c).filter (matchesFilter f)

/-- Program entity of schemas.py. -/
structure Program where
  name : String
  department : String
  level : String
  duration_years : Int
  description : Option String
  semesters : Int
deriving DecidableEq

/-- Faculty entity of schemas.py (URL fields as plain strings). -/
structure Faculty where
  name : String
  designation : String
  department : String
  email : Option String
  phone : Option String
  photo_url : Option String
  research_areas : List String
deriving DecidableEq

/-- Event entity of schemas.py (dates as integer ordinals). -/
structure Event where
  title : String
  description : Option String
  category : String
  start_date : Int
  end_date : Option Int
  location : String
  link : Option String
deriving DecidableEq

/-- Admission entity of schemas.py. -/
structure Admission where
  year : Int
  program : String
  status : String
  application_deadline : Option Int
  brochure_url : Option String
  apply_url : Option String
  notes : Option String
deriving DecidableEq

/-- Pyq entity of schemas.py. -/
structure Pyq where
  program : String
  department : String
  course_code : String
  course_title : String
  semester : Int
  year : Int
  exam_type : String
  file_url : String
deriving DecidableEq

/-- A required string field. -/
def getReqStr (d : Doc) (k : String) : Option String :=
  match docGet d k with
  | some (Value.str s) => some s
  | _ => Option.none

/-- A required integer field. -/
def getReqInt (d : Doc) (k : String) : Option Int :=
  match docGet d k with
  | some (Value.int n) => some n
  | _ => Option.none

/-- A required date field. -/
def getReqDate (d : Doc) (k : String) : Option Int :=
  match docGet d k with
  | some (Value.date n) => some n
  | _ => Option.none

/-- An optional string field: missing or null reads as None. -/
def getOptStr (d : Doc) (k : String) : Option (Option String) :=
  match docGet d k with
  | Option.none => some Option.none
  | some Value.null => some Option.none
  | some (Value.str s) => some (some s)
  | _ => Option.none

/-- An optional date field: missing or null reads as None. -/
def getOptDate (d : Doc) (k : String) : Option (Option Int) :=
  match docGet d k with
  | Option.none => some Option.none
  | some Value.null => some Option.none
  | some (Value.date n) => some (some n)
  | _ => Option.none

/-- A list-of-strings field with default empty list. -/
def getStrList (d : Doc) (k : String) : Option (List String) :=
  match docGet d k with
  | Option.none => some []
  | some (Value.strList l) => some l
  | _ => Option.none

/-- Validation of a raw mapping into Program, with the bounds of
schemas.py (duration_years in 1..6, semesters in 1..12). -/
def Program.validate (d : Doc) : Option Program :=
  match getReqStr d "name", getReqStr d "department", getReqStr d "level",
      getReqInt d "duration_years", getOptStr d "description", getReqInt d "semesters" with
  | some name, some department, some level, some dy, some description, some sem =>
    if 1 ≤ dy ∧ dy ≤ 6 then
      if 1 ≤ sem ∧ sem ≤ 12 then
        some ⟨name, department, level, dy, description, sem⟩
      else Option.none
    else Option.none
  | _, _, _, _, _, _ => Option.none

/-- Validation of a raw mapping into Faculty. -/
def Faculty.validate (d : Doc) : Option Faculty :=
  match getReqStr d "name", getReqStr d "designation", getReqStr d "department",
      getOptStr d "email", getOptStr d "phone", getOptStr d "photo_url",
      getStrList d "research_areas" with
  | some name, some desig, some dept, some email, some phone, some purl, some ras =>
    some ⟨name, desig, dept, email, phone, purl, ras⟩
  | _, _, _, _, _, _, _ => Option.none

/-- Validation of a raw mapping into Event. -/
def Event.validate (d : Doc) : Option Event :=
  match getReqStr d "title", getOptStr d "description", getReqStr d "category",
      getReqDate d "start_date", getOptDate d "end_date", getReqStr d "location",
      getOptStr d "link" with
  | some title, some description, some category, some sd, some ed, some location, some link =>
    some ⟨title, description, category, sd, ed, location, link⟩
  | _, _, _, _, _, _, _ => Option.none

/-- Validation of a raw mapping into Admission. -/
def Admission.validate (d : Doc) : Option Admission :=
  match getReqInt d "year", getReqStr d "program", getReqStr d "status",
      getOptDate d "application_deadline", getOptStr d "brochure_url",
      getOptStr d "apply_url", getOptStr d "notes" with
  | some y, some program, some status, some ad, some bu, some au, some notes =>
    some ⟨y, program, status, ad, bu, au, notes⟩
  | _, _, _, _, _, _, _ => Option.none

/-- Validation of a raw mapping into Pyq, with the semester bound 1..12 of
schemas.py. -/
def Pyq.validate (d : Doc) : Option Pyq :=
  match getReqStr d "program", getReqStr d "department", getReqStr d "course_code",
      getReqStr d "course_title", getReqInt d "semester", getReqInt d "year",
      getReqStr d "exam_type", getReqStr d "file_url" with
  | some p, some dep, some cc, some ct, some sem, some y, some et, some fu =>
    if 1 ≤ sem ∧ sem ≤ 12 then
      some ⟨p, dep, cc, ct, sem, y, et, fu⟩
    else Option.none
  | _, _, _, _, _, _, _, _ => Option.none

def optStrVal : Option String → Value
  | some s => Value.str s
  | Option.none => Value.null

def optDateVal : Option Int → Value
  | some n => Value.date n
  | Option.none => Value.null

/-- Serialization of a Program, fields in declaration order. -/
def Program.toDoc (p : Program) : Doc :=
  [("name", Value.str p.name), ("department", Value.str p.department),
   ("level", Value.str p.level), ("duration_years", Value.int p.duration_years),
   ("description", optStrVal p.description), ("semesters", Value.int p.semesters)]

/-- Serialization of a Faculty record, fields in declaration order. -/
def Faculty.toDoc (f : Faculty) : Doc :=
  [("name", Value.str f.name), ("designation", Value.str f.designation),
   ("department", Value.str f.department), ("email", optStrVal f.email),
   ("phone", optStrVal f.phone), ("photo_url", optStrVal f.photo_url),
   ("research_areas", Value.strList f.research_areas)]

/-- Serialization of an Event, fields in declaration order. -/
def Event.toDoc (e : Event) : Doc :=
  [("title", Value.str e.title), ("description", optStrVal e.description),
   ("category", Value.str e.category), ("start_date", Value.date e.start_date),
   ("end_date", optDateVal e.end_date), ("location", Value.str e.location),
   ("link", optStrVal e.link)]

/-- Serialization of an Admission, fields in declaration order. -/
def Admission.toDoc (a : Admission) : Doc :=
  [("year", Value.int a.year), ("program", Value.str a.program),
   ("status", Value.str a.status), ("application_deadline", optDateVal a.application_deadline),
   ("brochure_url", optStrVal a.brochure_url), ("apply_url", optStrVal a.apply_url),
   ("notes", optStrVal a.notes)]

/-- Serialization of a Pyq, fields in declaration order. -/
def Pyq.toDoc (q : Pyq) : Doc :=
  [("program", Value.str q.program), ("department", Value.str q.department),
   ("course_code", Value.str q.course_code), ("course_title", Value.str q.course_title),
   ("semester", Value.int q.semester), ("year", Value.int q.year),
   ("exam_type", Value.str q.exam_type), ("file_url", Value.str q.file_url)]

/-- All-or-nothing validation of a list of documents: the Python list
comprehension that raises on the first record failing validation. -/
def mapOpt {α β : Type} (g : α → Option β) : List α → Option (List β)
  | [] => some []
  | a :: as =>
    match g a, mapOpt g as with
    | some b, some bs => some (b :: bs)
    | _, _ => Option.none

/-- Handler body of GET /api/programs (main.py list_programs). -/
def list_programs (db : Option Store) : Option (List Program) :=
  let docs := if db.isSome then get_documents db "program" [] else []
  mapOpt (fun d => Program.validate (stripMeta d)) docs

/-- Handler body of GET /api/faculty (main.py list_faculty). -/
def list_faculty (db : Option Store) (department : Option String) : Option (List Faculty) :=
  let filter_q : Doc :=
    match department with
    | some dep => if strNonEmpty dep && db.isSome then [("department", Value.str dep)] else []
    | Option.none => []
  let docs := if db.isSome then get_documents db "faculty" filter_q else []
  mapOpt (fun d => Faculty.validate (stripMeta d)) docs

/-- Handler body of GET /api/events (main.py list_events). -/
def list_events (db : Option Store) (category : Option String) : Option (List Event) :=
  let filter_q : Doc :=
    match category with
    | some cat => if strNonEmpty cat && db.isSome then [("category", Value.str cat)] else []
    | Option.none => []
  let docs := if db.isSome then get_documents db "event" filter_q else []
  mapOpt (fun d => Event.validate (stripMeta d)) docs

/-- Handler body of GET /api/admissions (main.py list_admissions). -/
def list_admissions (db : Option Store) (status : Option String) : Option (List Admission) :=
  let filter_q : Doc :=
    match status with
    | some st => if strNonEmpty st && db.isSome then [("status", Value.str st)] else []
    | Option.none => []
  let docs := if db.isSome then get_documents db "admission" filter_q else []
  mapOpt (fun d => Admission.validate (stripMeta d)) docs

/-- A string-parameter entry of the pyq filter: inserted only when the
parameter is provided and truthy (non-empty), per the if-chain of
main.py list_pyqs. -/
def strChunk (key : String) (o : Option String) : Doc :=
  match o with
  | some v => if strNonEmpty v then [(key, Value.str v)] else []
  | Option.none => []

/-- An integer-parameter entry of the pyq filter: inserted whenever the
parameter is provided (is not None), per main.py list_pyqs. -/
def intChunk (key : String) (o : Option Int) : Doc :=
  match o with
  | some n => [(key, Value.int n)]
  | Option.none => []

/-- The filter object list_pyqs builds and passes to the store, keys in
the fixed source order. -/
def buildPyqFilter (program department : Option String) (semester : Option Int)
    (course_code : Option String) (year : Option Int) (exam_type : Option String) : Doc :=
  strChunk "program" program ++ strChunk "department" department
    ++ intChunk "semester" semester ++ strChunk "course_code" course_code
    ++ intChunk "year" year ++ strChunk "exam_type" exam_type

/-- The search predicate list_pyqs applies client-side: the lowercased term
must occur in the lowercased course_code, a space, and the lowercased
course_title. -/
def codeSearchPred (s : String) (d : Doc) : Bool :=
  strIn (strLower s)
    (strLower (docGetStrD d "course_code") ++ " " ++ strLower (docGetStrD d "course_title"))

/-- The post-retrieval search step of list_pyqs: applied only when search
is provided and truthy (non-empty). -/
def pyqSearch (search : Option String) (docs : List Doc) : List Doc :=
  match search with
  | some s => if strNonEmpty s then docs.filter (codeSearchPred s) else docs
  | Option.none => docs

/-- Handler body of GET /api/pyqs (main.py list_pyqs). -/
def list_pyqs (db : Option Store) (program department : Option String)
    (semester : Option Int) (course_code : Option String) (year : Option Int)
    (exam_type search : Option String) : Option (List Pyq) :=
  match db with
  | Option.none => some []
  | some _ =>
    let docs := get_documents db "pyq" (buildPyqFilter program department semester course_code year exam_type)
    mapOpt (fun d => Pyq.validate (stripMeta d)) (pyqSearch search docs)

/-- Outcome of an endpoint call: a payload, a request-validation client
error, or a server error (a stored record failing validation on read). -/
inductive Resp (α : Type) where
  | ok (val : α)
  | clientError
  | serverError
deriving DecidableEq

/-- Lift a handler result: validation failure on read surfaces as a server
error. -/
def wrap {α : Type} : Option α → Resp α
  | some l => Resp.ok l
  | Option.none => Resp.serverError

/-- The declared request validation of the semester query parameter in
main.py: Query(None, ge=1, le=12). -/
def semesterOk : Option Int → Bool
  | Option.none => true
  | some n => decide (1 ≤ n) && decide (n ≤ 12)

def list_programs_endpoint (db : Option Store) : Resp (List Program) :=
  wrap (list_programs db)

def list_faculty_endpoint (db : Option Store) (department : Option String) : Resp (List Faculty) :=
  wrap (list_faculty db department)

def list_events_endpoint (db : Option Store) (category : Option String) : Resp (List Event) :=
  wrap (list_events db category)

def list_admissions_endpoint (db : Option Store) (status : Option String) : Resp (List Admission) :=
  wrap (list_admissions db status)

/-- GET /api/pyqs: request validation of the declared semester bounds runs
before the handler body, rejecting out-of-range values with a client
error. -/
def list_pyqs_endpoint (db : Option Store) (program department : Option String)
    (semester : Option Int) (course_code : Option String) (year : Option Int)
    (exam_type search : Option String) : Resp (List Pyq) :=
  if semesterOk semester then
    wrap (list_pyqs db program department semester course_code year exam_type search)
  else Resp.clientError

/-- The demo Program records of seed_demo_data. -/
def progBTech : Program :=
  ⟨"B.Tech Computer Science", "CSE", "UG", 4, some "Core CS curriculum with electives in AI/ML", 8⟩

def progMTech : Program :=
  ⟨"M.Tech Data Science", "CSE", "PG", 2, some "Advanced DS/ML program", 4⟩

/-- The demo Faculty records of seed_demo_data. -/
def facSharma : Faculty :=
  ⟨"Dr. A. Sharma", "Professor", "CSE", some "asharma@nijt.ac.in", Option.none, Option.none,
   ["AI", "Computer Vision"]⟩

def facKaur : Faculty :=
  ⟨"Dr. R. Kaur", "Assistant Professor", "ECE", some "rkaur@nijt.ac.in", Option.none, Option.none,
   ["VLSI", "Embedded Systems"]⟩

/-- The demo Event records of seed_demo_data, parameterized by today. -/
def evSymposium (t : Int) : Event :=
  ⟨"AI Symposium 2025", some "Talks & workshops on AI", "seminar", t, some t, "Auditorium",
   Option.none⟩

def evTechFest (t : Int) : Event :=
  ⟨"TechFest", some "Annual technical fest", "cultural", t + 30, some (t + 32), "Campus Grounds",
   Option.none⟩

/-- The demo Admission record of seed_demo_data. -/
def admDemo : Admission :=
  ⟨2025, "B.Tech", "Open", Option.none, Option.none, Option.none,
   some "Apply via national counseling portal"⟩

/-- The demo Pyq record of seed_demo_data. -/
def pyqDemo : Pyq :=
  ⟨"BTECH CSE", "CSE", "CS101", "Programming Fundamentals", 1, 2023, "End",
   "https://example.com/pyq/cs101_2023_end.pdf"⟩

/-- Modelled from the spec: the store operations seeding goes through
(database.create_document and the collection count, not under src), with
each call allowed to fail, standing for the exceptions the try block of
seed_demo_data can see. -/
structure Backend where
  count : Store → String → Doc → Except String Nat
  insert : Store → String → Doc → Except String Store

/-- The backend in which every store operation succeeds, with the
spec-modelled count and insert semantics. -/
def realBackend : Backend :=
  ⟨fun s c f => Except.ok ((s.get c).filter (matchesFilter f)).length,
   fun s c d => Except.ok (create_document s c d)⟩

/-- One collection of the seed pass inserting two records: count with the
empty filter, insert both records only when the count is zero; any
operation failure propagates. -/
def seedStep2 (b : Backend) (c : String) (d1 d2 : Doc) (s : Store) : Except String Store :=
  match b.count s c [] with
  | Except.error e => Except.error e
  | Except.ok n =>
    if n = 0 then
      match b.insert s c d1 with
      | Except.error e => Except.error e
      | Except.ok sa => b.insert sa c d2
    else Except.ok s

/-- One collection of the seed pass inserting a single record. -/
def seedStep1 (b : Backend) (c : String) (d1 : Doc) (s : Store) : Except String Store :=
  match b.count s c [] with
  | Except.error e => Except.error e
  | Except.ok n =>
    if n = 0 then b.insert s c d1
    else Except.ok s

/-- The try-block body of seed_demo_data: the five collections in source
order, each seeded only when empty; the first failure aborts the pass. -/
def seedBody (b : Backend) (t : Int) (s : Store) : Except String Store :=
  match seedStep2 b "program" progBTech.toDoc progMTech.toDoc s with
  | Except.error e => Except.error e
  | Except.ok s1 =>
  match seedStep2 b "faculty" facSharma.toDoc facKaur.toDoc s1 with
  | Except.error e => Except.error e
  | Except.ok s2 =>
  match seedStep2 b "event" (evSymposium t).toDoc (evTechFest t).toDoc s2 with
  | Except.error e => Except.error e
  | Except.ok s3 =>
  match seedStep1 b "admission" admDemo.toDoc s3 with
  | Except.error e => Except.error e
  | Except.ok s4 => seedStep1 b "pyq" pyqDemo.toDoc s4

/-- seed_demo_data of main.py: returns immediately when no store is
configured; otherwise runs the seed pass and swallows any failure,
leaving the store as the pass left it before failing is not observable,
so the original store is kept. -/
def seed_demo_data (b : Backend) (t : Int) (db : Option Store) : Option Store :=
  match db with
  | Option.none => Option.none
  | some s =>
    match seedBody b t s with
    | Except.ok s1 => some s1
    | Except.error _ => some s

/-- The pure effect of a successful seed pass on a store. -/
def seedStoreP (t : Int) (s : Store) : Store :=
  let s1 := if (s.get "program").length = 0 then
      create_document (create_document s "program" progBTech.toDoc) "program" progMTech.toDoc
    else s
  let s2 := if (s1.get "faculty").length = 0 then
      create_document (create_document s1 "faculty" facSharma.toDoc) "faculty" facKaur.toDoc
    else s1
  let s3 := if (s2.get "event").length = 0 then
      create_document (create_document s2 "event" (evSymposium t).toDoc) "event" (evTechFest t).toDoc
    else s2
  let s4 := if (s3.get "admission").length = 0 then
      create_document s3 "admission" admDemo.toDoc
    else s3
  if (s4.get "pyq").length = 0 then create_document s4 "pyq" pyqDemo.toDoc else s4

/-- Record count of a collection under an optional store. -/
def optCount (db : Option Store) (c : String) : Nat :=
  match db with
  | Option.none => 0
  | some s => (s.get c).length

/-- The search predicate as the claim words it: the lowercased term is a
substring of the concatenation of the lowercased course_code and the
lowercased course_title, with nothing in between. -/
def claimSearchPred (s : String) (d : Doc) : Bool :=
  strIn (strLower s)
    (strLower (docGetStrD d "course_code") ++ strLower (docGetStrD d "course_title"))

/-- A string-parameter entry of the pyq filter as the claim words it:
inserted for every provided (non-null) value, empty or not. -/
def claimStrChunk (key : String) (o : Option String) : Doc :=
  match o with
  | some v => [(key, Value.str v)]
  | Option.none => []

/-- The pyq filter as the claim words it: one exact-match entry per
provided non-null parameter, keys in the fixed order. -/
def claimPyqFilter (program department : Option String) (semester : Option Int)
    (course_code : Option String) (year : Option Int) (exam_type : Option String) : Doc :=
  claimStrChunk "program" program ++ claimStrChunk "department" department
    ++ intChunk "semester" semester ++ claimStrChunk "course_code" course_code
    ++ intChunk "year" year ++ claimStrChunk "exam_type" exam_type

/-- A string-parameter entry of the pyq filter as the amended claim words
it: inserted for every provided value that is non-empty. -/
def amendedStrChunk (key : String) (o : Option String) : Doc :=
  match o with
  | some v => if v = "" then [] else [(key, Value.str v)]
  | Option.none => []

/-- The pyq filter as the amended claim words it: one exact-match entry per
provided parameter, skipping empty strings, keys in the fixed order. -/
def amendedPyqFilter (program department : Option String) (semester : Option Int)
    (course_code : Option String) (year : Option Int) (exam_type : Option String) : Doc :=
  amendedStrChunk "program" program ++ amendedStrChunk "department" department
    ++ intChunk "semester" semester ++ amendedStrChunk "course_code" course_code
    ++ intChunk "year" year ++ amendedStrChunk "exam_type" exam_type

/-- A pyq record with a course title whose text begins right after the
course code, exercising the search boundary. -/
def pyqC1 : Pyq :=
  ⟨"BTECH CSE", "CSE", "CS101", "Data Structures", 1, 2023, "End",
   "https://example.com/x.pdf"⟩

/-- A store holding only that pyq record. -/
def stC1 : Store := ⟨[], [], [], [], [pyqC1.toDoc]⟩

/-- A store holding one faculty record. -/
def stFac : Store := ⟨[], [facSharma.toDoc], [], [], []⟩

/-- A store holding one program record. -/
def stProg : Store := ⟨[progBTech.toDoc], [], [], [], []⟩

/-- A backend in which every store operation fails, standing for an
unreachable store. -/
def failBackend : Backend :=
  ⟨fun _ _ _ => Except.error "store unreachable",
   fun _ _ _ => Except.error "store unreachable"⟩

@[simp] lemma get_program (s : Store) : Store.get s "program" = s.program := rfl

@[simp] lemma get_faculty (s : Store) : Store.get s "faculty" = s.faculty := rfl

@[simp] lemma get_event (s : Store) : Store.get s "event" = s.event := rfl

@[simp] lemma get_admission (s : Store) : Store.get s "admission" = s.admission := rfl

@[simp] lemma get_pyq (s : Store) : Store.get s "pyq" = s.pyq := rfl

@[simp] lemma cdP_program (s : Store) (d : Doc) :
    (create_document s "program" d).program = s.program ++ [d ++ metaDoc s.program.length] := rfl

@[simp] lemma cdP_faculty (s : Store) (d : Doc) :
    (create_document s "program" d).faculty = s.faculty := rfl

@[simp] lemma cdP_event (s : Store) (d : Doc) :
    (create_document s "program" d).event = s.event := rfl

@[simp] lemma cdP_admission (s : Store) (d : Doc) :
    (create_document s "program" d).admission = s.admission := rfl

@[simp] lemma cdP_pyq (s : Store) (d : Doc) :
    (create_document s "program" d).pyq = s.pyq := rfl

@[simp] lemma cdF_program (s : Store) (d : Doc) :
    (create_document s "faculty" d).program = s.program := rfl

@[simp] lemma cdF_faculty (s : Store) (d : Doc) :
    (create_document s "faculty" d).faculty = s.faculty ++ [d ++ metaDoc s.faculty.length] := rfl

@[simp] lemma cdF_event (s : Store) (d : Doc) :
    (create_document s "faculty" d).event = s.event := rfl

@[simp] lemma cdF_admission (s : Store) (d : Doc) :
    (create_document s "faculty" d).admission = s.admission := rfl

@[simp] lemma cdF_pyq (s : Store) (d : Doc) :
    (create_document s "faculty" d).pyq = s.pyq := rfl

@[simp] lemma cdE_program (s : Store) (d : Doc) :
    (create_document s "event" d).program = s.program := rfl

@[simp] lemma cdE_faculty (s : Store) (d : Doc) :
    (create_document s "event" d).faculty = s.faculty := rfl

@[simp] lemma cdE_event (s : Store) (d : Doc) :
    (create_document s "event" d).event = s.event ++ [d ++ metaDoc s.event.length] := rfl

@[simp] lemma cdE_admission (s : Store) (d : Doc) :
    (create_document s "event" d).admission = s.admission := rfl

@[simp] lemma cdE_pyq (s : Store) (d : Doc) :
    (create_document s "event" d).pyq = s.pyq := rfl

@[simp] lemma cdA_program (s : Store) (d : Doc) :
    (create_document s "admission" d).program = s.program := rfl

@[simp] lemma cdA_faculty (s : Store) (d : Doc) :
    (create_document s "admission" d).faculty = s.faculty := rfl

@[simp] lemma cdA_event (s : Store) (d : Doc) :
    (create_document s "admission" d).event = s.event := rfl

@[simp] lemma cdA_admission (s : Store) (d : Doc) :
    (create_document s "admission" d).admission = s.admission ++ [d ++ metaDoc s.admission.length] := rfl

@[simp] lemma cdA_pyq (s : Store) (d : Doc) :
    (create_document s "admission" d).pyq = s.pyq := rfl

@[simp] lemma cdQ_program (s : Store) (d : Doc) :
    (create_document s "pyq" d).program = s.program := rfl

@[simp] lemma cdQ_faculty (s : Store) (d : Doc) :
    (create_document s "pyq" d).faculty = s.faculty := rfl

@[simp] lemma cdQ_event (s : Store) (d : Doc) :
    (create_document s "pyq" d).event = s.event := rfl

@[simp] lemma cdQ_admission (s : Store) (d : Doc) :
    (create_document s "pyq" d).admission = s.admission := rfl

@[simp] lemma cdQ_pyq (s : Store) (d : Doc) :
    (create_document s "pyq" d).pyq = s.pyq ++ [d ++ metaDoc s.pyq.length] := rfl

lemma matchesFilter_nil (d : Doc) : matchesFilter [] d = true := rfl

lemma filter_matchesFilter_nil (l : List Doc) : l.filter (matchesFilter []) = l := by
  induction l with
  | nil => rfl
  | cons a as ih => simp [List.filter_cons, matchesFilter_nil, ih]

lemma seedStep2_real (c : String) (d1 d2 : Doc) (s : Store) :
    seedStep2 realBackend c d1 d2 s =
      Except.ok (if (s.get c).length = 0 then
          create_document (create_document s c d1) c d2
        else s) := by
  by_cases h : (s.get c).length = 0 <;>
    simp [seedStep2, realBackend, filter_matchesFilter_nil, h]

lemma seedStep1_real (c : String) (d1 : Doc) (s : Store) :
    seedStep1 realBackend c d1 s =
      Except.ok (if (s.get c).length = 0 then create_document s c d1 else s) := by
  by_cases h : (s.get c).length = 0 <;>
    simp [seedStep1, realBackend, filter_matchesFilter_nil, h]

lemma seedBody_real (t : Int) (s : Store) :
    seedBody realBackend t s = Except.ok (seedStoreP t s) := by
  simp [seedBody, seedStep2_real, seedStep1_real, seedStoreP]

lemma sp_program_ne (t : Int) (s : Store) : (seedStoreP t s).program ≠ [] := by
  simp only [seedStoreP, get_program, get_faculty, get_event, get_admission, get_pyq,
    apply_ite Store.program, cdP_program, cdF_program, cdE_program, cdA_program, cdQ_program,
    ite_self]
  by_cases h : s.program.length = 0
  · rw [if_pos h]
    intro hc
    have := congrArg List.length hc
    simp at this
  · rw [if_neg h]
    intro hc
    exact h (by rw [hc]; rfl)

lemma sp_faculty_ne (t : Int) (s : Store) : (seedStoreP t s).faculty ≠ [] := by
  simp only [seedStoreP, get_program, get_faculty, get_event, get_admission, get_pyq,
    apply_ite Store.faculty, cdP_faculty, cdF_faculty, cdE_faculty, cdA_faculty, cdQ_faculty,
    ite_self]
  by_cases h : s.faculty.length = 0
  · rw [if_pos h]
    intro hc
    have := congrArg List.length hc
    simp at this
  · rw [if_neg h]
    intro hc
    exact h (by rw [hc]; rfl)

lemma sp_event_ne (t : Int) (s : Store) : (seedStoreP t s).event ≠ [] := by
  simp only [seedStoreP, get_program, get_faculty, get_event, get_admission, get_pyq,
    apply_ite Store.event, cdP_event, cdF_event, cdE_event, cdA_event, cdQ_event,
    ite_self]
  by_cases h : s.event.length = 0
  · rw [if_pos h]
    intro hc
    have := congrArg List.length hc
    simp at this
  · rw [if_neg h]
    intro hc
    exact h (by rw [hc]; rfl)

lemma sp_admission_ne (t : Int) (s : Store) : (seedStoreP t s).admission ≠ [] := by
  simp only [seedStoreP, get_program, get_faculty, get_event, get_admission, get_pyq,
    apply_ite Store.admission, cdP_admission, cdF_admission, cdE_admission, cdA_admission,
    cdQ_admission, ite_self]
  by_cases h : s.admission.length = 0
  · rw [if_pos h]
    intro hc
    have := congrArg List.length hc
    simp at this
  · rw [if_neg h]
    intro hc
    exact h (by rw [hc]; rfl)

lemma sp_pyq_ne (t : Int) (s : Store) : (seedStoreP t s).pyq ≠ [] := by
  simp only [seedStoreP, get_program, get_faculty, get_event, get_admission, get_pyq,
    apply_ite Store.pyq, cdP_pyq, cdF_pyq, cdE_pyq, cdA_pyq, cdQ_pyq, ite_self]
  by_cases h : s.pyq.length = 0
  · rw [if_pos h]
    intro hc
    have := congrArg List.length hc
    simp at this
  · rw [if_neg h]
    intro hc
    exact h (by rw [hc]; rfl)

lemma sp_stable (t : Int) (s : Store) (h1 : s.program ≠ []) (h2 : s.faculty ≠ [])
    (h3 : s.event ≠ []) (h4 : s.admission ≠ []) (h5 : s.pyq ≠ []) :
    seedStoreP t s = s := by
  have c1 : ¬ (s.program.length = 0) := by simpa [List.length_eq_zero] using h1
  have c2 : ¬ (s.faculty.length = 0) := by simpa [List.length_eq_zero] using h2
  have c3 : ¬ (s.event.length = 0) := by simpa [List.length_eq_zero] using h3
  have c4 : ¬ (s.admission.length = 0) := by simpa [List.length_eq_zero] using h4
  have c5 : ¬ (s.pyq.length = 0) := by simpa [List.length_eq_zero] using h5
  simp [seedStoreP, c1, c2, c3, c4, c5]

lemma seed_idem_store (t tp : Int) (s : Store) :
    seedStoreP tp (seedStoreP t s) = seedStoreP t s :=
  sp_stable tp _ (sp_program_ne t s) (sp_faculty_ne t s) (sp_event_ne t s)
    (sp_admission_ne t s) (sp_pyq_ne t s)

lemma mapOpt_mem {α β : Type} (g : α → Option β) (ds : List α) (l : List β)
    (h : mapOpt g ds = some l) (x : β) (hx : x ∈ l) :
    ∃ d, d ∈ ds ∧ g d = some x := by
  induction ds generalizing l with
  | nil =>
    simp [mapOpt] at h
    subst h
    simp at hx
  | cons a as ih =>
    simp only [mapOpt] at h
    cases hga : g a with
    | none => rw [hga] at h; simp at h
    | some b =>
      cases hm : mapOpt g as with
      | none => rw [hga, hm] at h; simp at h
      | some bs =>
        rw [hga, hm] at h
        simp only [Option.some.injEq] at h
        subst h
        rcases List.mem_cons.mp hx with hxb | hxbs
        · exact ⟨a, List.mem_cons_self a as, by rw [hga, hxb]⟩
        · obtain ⟨d, hd, hgd⟩ := ih bs hm hxbs
          exact ⟨d, List.mem_cons_of_mem a hd, hgd⟩

lemma stripMeta_docGet (d : Doc) (k : String) (hk : metaKeys.contains k = false) :
    docGet (stripMeta d) k = docGet d k := by
  induction d with
  | nil => rfl
  | cons kv rest ih =>
    obtain ⟨k1, v1⟩ := kv
    by_cases hkv : metaKeys.contains k1 = true
    · have hne : ¬ (k1 = k) := by
        intro he
        rw [he] at hkv
        rw [hkv] at hk
        cases hk
      simp only [stripMeta, List.filter_cons] at ih ⊢
      rw [hkv]
      simp only [Bool.not_true, if_neg (by simp : ¬ (false = true))]
      rw [ih]
      simp [docGet, hne]
    · have hkv2 : metaKeys.contains k1 = false := by
        cases hcc : metaKeys.contains k1
        · rfl
        · exact absurd hcc hkv
      simp only [stripMeta, List.filter_cons] at ih ⊢
      rw [hkv2]
      simp only [Bool.not_false, if_pos rfl]
      by_cases he : k1 = k
      · simp [docGet, he]
      · simp only [docGet, if_neg he]
        exact ih

lemma hasKey_stripMeta (d : Doc) (k : String) (hk : metaKeys.contains k = true) :
    hasKey (stripMeta d) k = false := by
  induction d with
  | nil => rfl
  | cons kv rest ih =>
    obtain ⟨k1, v1⟩ := kv
    by_cases hkv : metaKeys.contains k1 = true
    · simp only [stripMeta, List.filter_cons] at ih ⊢
      rw [hkv]
      simpa using ih
    · have hkv2 : metaKeys.contains k1 = false := by
        cases hcc : metaKeys.contains k1
        · rfl
        · exact absurd hcc hkv
      have hne : ¬ (k1 = k) := by
        intro he
        rw [he, hk] at hkv2
        cases hkv2
      simp only [stripMeta, List.filter_cons] at ih ⊢
      rw [hkv2]
      simp only [Bool.not_false, if_pos rfl]
      simp [hasKey, hne]
      simpa [stripMeta] using ih

lemma wrap_ne_clientError {α : Type} (o : Option α) : wrap o ≠ Resp.clientError := by
  cases o <;> simp [wrap]

lemma faculty_validate_department (d : Doc) (f : Faculty)
    (h : Faculty.validate d = some f) :
    getReqStr d "department" = some f.department := by
  simp only [Faculty.validate] at h
  split at h
  · next name desig dept email phone purl ras hn hd hdep hem hph hpu hra =>
    simp only [Option.some.injEq] at h
    subst h
    exact hdep
  · cases h

lemma listContains_nilNeedle (l : List Char) : listContains [] l = true := by
  cases l <;> simp [listContains, leadSeg, List.isEmpty]

lemma codeSearchPred_empty (d : Doc) : codeSearchPred "" d = true := by
  have h1 : strLower "" = "" := rfl
  simp only [codeSearchPred, strIn, h1]
  exact listContains_nilNeedle _

lemma pyqSearch_filter (s : String) (docs : List Doc) :
    pyqSearch (some s) docs = docs.filter (codeSearchPred s) := by
  by_cases hs : strNonEmpty s = true
  · simp [pyqSearch, hs]
  · have hse : s = "" := by
      rcases eq_or_ne s "" with h | h
      · exact h
      · exact absurd (decide_eq_true h) hs
    subst hse
    have hall : docs.filter (codeSearchPred "") = docs :=
      List.filter_eq_self.mpr (fun d _ => codeSearchPred_empty d)
    simp [pyqSearch, strNonEmpty, hall]

lemma strChunk_eq_amended (k : String) (o : Option String) :
    strChunk k o = amendedStrChunk k o := by
  cases o with
  | none => rfl
  | some v =>
    by_cases hv : v = ""
    · subst hv; rfl
    · have h1 : strNonEmpty v = true := decide_eq_true hv
      simp [strChunk, amendedStrChunk, h1, hv]

/-- Claim C1, counterexample: for the stored pyq record with course_code
CS101 and course_title Data Structures, the search term 101data is a
substring of the plain concatenation of the lowercased course_code and
course_title, the record is retrieved by the store query, and yet listPyqs
returns the empty list, because the code inserts a space between the two
fields before matching. -/
theorem C1_counterexample :
    claimSearchPred "101data" pyqC1.toDoc = true
    ∧ get_documents (some stC1) "pyq"
        (buildPyqFilter Option.none Option.none Option.none Option.none Option.none Option.none)
      = [pyqC1.toDoc]
    ∧ list_pyqs (some stC1) Option.none Option.none Option.none Option.none Option.none
        Option.none (some "101data") = some [] := by
  refine ⟨by decide, by decide, by decide⟩

/-- Claim C1, amended: with a non-null search parameter, listPyqs keeps
exactly those retrieved documents for which the lowercased search term is
a substring of the lowercased course_code, a single space, and the
lowercased course_title; the search term is never part of the store
filter, being applied only after retrieval; search cs101 matches a record
with course_code CS101, and a record with course_code CS202 and
course_title Data Structures is excluded. -/
theorem C1_amended :
    (∀ (s : String) (docs : List Doc),
      pyqSearch (some s) docs = docs.filter (codeSearchPred s))
    ∧ (∀ (st : Store) (p d : Option String) (sem : Option Int) (cc : Option String)
        (y : Option Int) (et : Option String) (s : String),
      list_pyqs (some st) p d sem cc y et (some s) =
        mapOpt (fun x => Pyq.validate (stripMeta x))
          (pyqSearch (some s) (get_documents (some st) "pyq" (buildPyqFilter p d sem cc y et))))
    ∧ codeSearchPred "cs101"
        [("course_code", Value.str "CS101"), ("course_title", Value.str "Intro")] = true
    ∧ codeSearchPred "cs101"
        [("course_code", Value.str "CS202"), ("course_title", Value.str "Data Structures")] = false := by
  refine ⟨pyqSearch_filter, fun st p d sem cc y et s => rfl, by decide, by decide⟩

/-- Claim C2, counterexample: with program provided as the empty string,
the filter the code builds is empty, while the claim's reading (an entry
for every non-null parameter) yields a filter with a program entry. -/
theorem C2_counterexample :
    buildPyqFilter (some "") Option.none Option.none Option.none Option.none Option.none = []
    ∧ claimPyqFilter (some "") Option.none Option.none Option.none Option.none Option.none
        = [("program", Value.str "")]
    ∧ buildPyqFilter (some "") Option.none Option.none Option.none Option.none Option.none
        ≠ claimPyqFilter (some "") Option.none Option.none Option.none Option.none Option.none := by
  refine ⟨rfl, rfl, by decide⟩

/-- Claim C2, amended: the filter passed to the store contains exactly one
exact-match entry for each of program, department, semester, course_code,
year, exam_type that was provided non-null and, for the string-valued
parameters, non-empty; no other entries; keys in that fixed order.  The
handler passes exactly this filter to the store. -/
theorem C2_amended :
    (∀ (p d : Option String) (sem : Option Int) (cc : Option String) (y : Option Int)
        (et : Option String),
      buildPyqFilter p d sem cc y et = amendedPyqFilter p d sem cc y et)
    ∧ (∀ (st : Store) (p d : Option String) (sem : Option Int) (cc : Option String)
        (y : Option Int) (et srch : Option String),
      list_pyqs (some st) p d sem cc y et srch =
        mapOpt (fun x => Pyq.validate (stripMeta x))
          (pyqSearch srch (get_documents (some st) "pyq" (buildPyqFilter p d sem cc y et)))) := by
  constructor
  · intro p d sem cc y et
    simp [buildPyqFilter, amendedPyqFilter, strChunk_eq_amended]
  · intro st p d sem cc y et srch
    rfl

/-- Claim C3: a semester parameter outside 1..12 is rejected with a client
error before any store query, whatever the store holds; semester values 1
and 12 are accepted (never a client error). -/
theorem C3_semester_validation :
    ∀ (db : Option Store) (p d : Option String) (cc : Option String) (y : Option Int)
      (et srch : Option String) (n : Int),
    ((n < 1 ∨ 12 < n) →
      list_pyqs_endpoint db p d (some n) cc y et srch = Resp.clientError)
    ∧ list_pyqs_endpoint db p d (some 1) cc y et srch ≠ Resp.clientError
    ∧ list_pyqs_endpoint db p d (some 12) cc y et srch ≠ Resp.clientError := by
  intro db p d cc y et srch n
  refine ⟨fun h => ?_, ?_, ?_⟩
  · have hsem : semesterOk (some n) = false := by
      rcases h with h | h
      · have h1 : ¬ (1 ≤ n) := by omega
        simp [semesterOk, h1]
      · have h1 : ¬ (n ≤ 12) := by omega
        simp [semesterOk, h1]
    simp [list_pyqs_endpoint, hsem]
  · have hsem : semesterOk (some 1) = true := by decide
    simp only [list_pyqs_endpoint, hsem, if_pos rfl]
    exact wrap_ne_clientError _
  · have hsem : semesterOk (some 12) = true := by decide
    simp only [list_pyqs_endpoint, hsem, if_pos rfl]
    exact wrap_ne_clientError _

/-- Claim C3, witness: semester 13 is rejected with a client error on the
unavailable store, and semester 1 is not. -/
theorem C3_witness :
    list_pyqs_endpoint Option.none Option.none Option.none (some 13) Option.none Option.none
      Option.none Option.none = Resp.clientError
    ∧ list_pyqs_endpoint Option.none Option.none Option.none (some 1) Option.none Option.none
      Option.none Option.none ≠ Resp.clientError := by
  refine ⟨(C3_semester_validation Option.none Option.none Option.none Option.none Option.none
    Option.none Option.none 13).1 (Or.inr (by decide)),
    (C3_semester_validation Option.none Option.none Option.none Option.none Option.none
    Option.none Option.none 1).2.1⟩

/-- Claim C4: the strip applied by every list endpoint removes the keys
_id, created_at, updated_at from every raw document before validation,
and consequently no record any of the five endpoints returns carries any
of the three fields in its serialized form. -/
theorem C4_meta_stripped :
    (∀ (d : Doc) (k : String), metaKeys.contains k = true → hasKey (stripMeta d) k = false)
    ∧ (∀ (db : Option Store) (l : List Program), list_programs_endpoint db = Resp.ok l →
        ∀ p, p ∈ l → hasKey p.toDoc "_id" = false ∧ hasKey p.toDoc "created_at" = false
          ∧ hasKey p.toDoc "updated_at" = false)
    ∧ (∀ (db : Option Store) (dep : Option String) (l : List Faculty),
        list_faculty_endpoint db dep = Resp.ok l →
        ∀ f, f ∈ l → hasKey f.toDoc "_id" = false ∧ hasKey f.toDoc "created_at" = false
          ∧ hasKey f.toDoc "updated_at" = false)
    ∧ (∀ (db : Option Store) (cat : Option String) (l : List Event),
        list_events_endpoint db cat = Resp.ok l →
        ∀ e, e ∈ l → hasKey e.toDoc "_id" = false ∧ hasKey e.toDoc "created_at" = false
          ∧ hasKey e.toDoc "updated_at" = false)
    ∧ (∀ (db : Option Store) (st : Option String) (l : List Admission),
        list_admissions_endpoint db st = Resp.ok l →
        ∀ a, a ∈ l → hasKey a.toDoc "_id" = false ∧ hasKey a.toDoc "created_at" = false
          ∧ hasKey a.toDoc "updated_at" = false)
    ∧ (∀ (db : Option Store) (p d : Option String) (sem : Option Int) (cc : Option String)
        (y : Option Int) (et srch : Option String) (l : List Pyq),
        list_pyqs_endpoint db p d sem cc y et srch = Resp.ok l →
        ∀ q, q ∈ l → hasKey q.toDoc "_id" = false ∧ hasKey q.toDoc "created_at" = false
          ∧ hasKey q.toDoc "updated_at" = false) := by
  refine ⟨fun d k hk => hasKey_stripMeta d k hk,
    fun _ _ _ p _ => ⟨rfl, rfl, rfl⟩,
    fun _ _ _ _ f _ => ⟨rfl, rfl, rfl⟩,
    fun _ _ _ _ e _ => ⟨rfl, rfl, rfl⟩,
    fun _ _ _ _ a _ => ⟨rfl, rfl, rfl⟩,
    fun _ _ _ _ _ _ _ _ _ _ q _ => ⟨rfl, rfl, rfl⟩⟩

/-- Claim C4, witness: stripping removes _id from a concrete stored
document, and the program record returned by listPrograms on a concrete
store carries no _id key. -/
theorem C4_witness :
    hasKey (stripMeta [("_id", Value.int 7), ("name", Value.str "x")]) "_id" = false
    ∧ hasKey progBTech.toDoc "_id" = false := by
  refine ⟨C4_meta_stripped.1 [("_id", Value.int 7), ("name", Value.str "x")] "_id" rfl,
    (C4_meta_stripped.2.1 (some stProg) [progBTech] rfl progBTech (by simp)).1⟩

/-- Claim C5: seeding through the store backend is idempotent: running the
seed step a second time, at any later date, leaves the stored state, and
with it every collection record count, unchanged. -/
theorem C5_seed_idempotent :
    ∀ (t tp : Int) (db : Option Store),
    seed_demo_data realBackend tp (seed_demo_data realBackend t db) =
      seed_demo_data realBackend t db
    ∧ ∀ c : String,
      optCount (seed_demo_data realBackend tp (seed_demo_data realBackend t db)) c =
        optCount (seed_demo_data realBackend t db) c := by
  intro t tp db
  have he : seed_demo_data realBackend tp (seed_demo_data realBackend t db) =
      seed_demo_data realBackend t db := by
    cases db with
    | none => rfl
    | some s => simp [seed_demo_data, seedBody_real, seed_idem_store]
  exact ⟨he, fun c => by rw [he]⟩

/-- Claim C6: on an available store whose five collections are all empty,
seeding and then listing programs yields exactly the two demo programs,
in insertion order. -/
theorem C6_seeded_programs :
    ∀ (t : Int) (s : Store), s.program = [] → s.faculty = [] → s.event = [] →
      s.admission = [] → s.pyq = [] →
    list_programs_endpoint (seed_demo_data realBackend t (some s)) =
      Resp.ok [progBTech, progMTech] := by
  intro t s h1 h2 h3 h4 h5
  obtain ⟨sp, sf, se, sa, sq⟩ := s
  have e1 : sp = [] := h1
  have e2 : sf = [] := h2
  have e3 : se = [] := h3
  have e4 : sa = [] := h4
  have e5 : sq = [] := h5
  subst e1 e2 e3 e4 e5
  rfl

/-- Claim C6, witness: the concrete empty store seeded at date 0. -/
theorem C6_witness :
    list_programs_endpoint (seed_demo_data realBackend 0 (some emptyStore)) =
      Resp.ok [progBTech, progMTech] :=
  C6_seeded_programs 0 emptyStore rfl rfl rfl rfl rfl

/-- Claim C7, counterexample: with the store unavailable, a listPyqs call
with semester 13 is rejected by request validation with a client error
instead of returning the empty list, so not every parameter value yields
an empty list. -/
theorem C7_counterexample :
    list_pyqs_endpoint Option.none Option.none Option.none (some 13) Option.none Option.none
      Option.none Option.none = Resp.clientError
    ∧ list_pyqs_endpoint Option.none Option.none Option.none (some 13) Option.none Option.none
      Option.none Option.none ≠ Resp.ok ([] : List Pyq) := by
  refine ⟨by decide, by decide⟩

/-- Claim C7, amended: when the store is unavailable, every one of the
five list endpoints returns the empty list and never an error, for all
parameter values that pass request validation (semester absent or within
1..12). -/
theorem C7_unavailable_empty :
    list_programs_endpoint Option.none = Resp.ok []
    ∧ (∀ dep : Option String, list_faculty_endpoint Option.none dep = Resp.ok [])
    ∧ (∀ cat : Option String, list_events_endpoint Option.none cat = Resp.ok [])
    ∧ (∀ st : Option String, list_admissions_endpoint Option.none st = Resp.ok [])
    ∧ (∀ (p d : Option String) (sem : Option Int) (cc : Option String) (y : Option Int)
        (et srch : Option String), semesterOk sem = true →
      list_pyqs_endpoint Option.none p d sem cc y et srch = Resp.ok []) := by
  refine ⟨rfl, fun dep => rfl, fun cat => rfl, fun st => rfl, ?_⟩
  intro p d sem cc y et srch hsem
  simp [list_pyqs_endpoint, hsem, list_pyqs, wrap]

/-- Claim C7, witness: the pyq endpoint on the unavailable store with an
in-range semester returns the empty list. -/
theorem C7_witness :
    list_pyqs_endpoint Option.none Option.none Option.none (some 5) Option.none Option.none
      Option.none Option.none = Resp.ok [] :=
  C7_unavailable_empty.2.2.2.2 Option.none Option.none (some 5) Option.none Option.none
    Option.none Option.none (by decide)

/-- Claim C8: seed_demo_data never propagates a failure: with no store it
returns immediately, and for every backend behaviour any failing seed
pass is swallowed, the function returning the untouched store, while a
successful pass returns the seeded store. -/
theorem C8_seed_never_raises :
    ∀ (b : Backend) (t : Int),
    seed_demo_data b t Option.none = Option.none
    ∧ (∀ (s : Store) (e : String), seedBody b t s = Except.error e →
        seed_demo_data b t (some s) = some s)
    ∧ (∀ (s s1 : Store), seedBody b t s = Except.ok s1 →
        seed_demo_data b t (some s) = some s1) := by
  intro b t
  refine ⟨rfl, fun s e he => ?_, fun s s1 hs => ?_⟩
  · simp [seed_demo_data, he]
  · simp [seed_demo_data, hs]

/-- Claim C8, witness: under the backend in which every store operation
fails, seeding the concrete empty store swallows the failure and returns
the store unchanged. -/
theorem C8_witness :
    seed_demo_data failBackend 0 (some emptyStore) = some emptyStore :=
  (C8_seed_never_raises failBackend 0).2.1 emptyStore "store unreachable" rfl

/-- Claim C9: for a non-empty department, every record listFaculty
returns under that filter has department exactly equal to the requested
value, the store honoring exact-match filters. -/
theorem C9_faculty_exact_match :
    ∀ (db : Option Store) (dep : String) (l : List Faculty), dep ≠ "" →
      list_faculty_endpoint db (some dep) = Resp.ok l →
      ∀ f, f ∈ l → f.department = dep := by
  intro db dep l hdep hok f hf
  cases db with
  | none =>
    have hl : list_faculty Option.none (some dep) = some [] := rfl
    rw [list_faculty_endpoint, hl] at hok
    simp [wrap] at hok
    subst hok
    simp at hf
  | some s =>
    have hne : strNonEmpty dep = true := decide_eq_true hdep
    have hlf : list_faculty (some s) (some dep) =
        mapOpt (fun d0 => Faculty.validate (stripMeta d0))
          (s.faculty.filter (matchesFilter [("department", Value.str dep)])) := by
      simp [list_faculty, hne, get_documents]
    rw [list_faculty_endpoint, hlf] at hok
    cases hm : mapOpt (fun d0 => Faculty.validate (stripMeta d0))
        (s.faculty.filter (matchesFilter [("department", Value.str dep)])) with
    | none => rw [hm] at hok; simp [wrap] at hok
    | some l2 =>
      rw [hm] at hok
      simp [wrap] at hok
      subst hok
      obtain ⟨d0, hd0mem, hval⟩ := mapOpt_mem _ _ _ hm f hf
      have hmatch : matchesFilter [("department", Value.str dep)] d0 = true :=
        (List.mem_filter.mp hd0mem).2
      have hdg : docGet d0 "department" = some (Value.str dep) := by
        simp [matchesFilter] at hmatch
        exact hmatch
      have hsg : docGet (stripMeta d0) "department" = some (Value.str dep) := by
        rw [stripMeta_docGet d0 "department" (by decide)]
        exact hdg
      have hreq : getReqStr (stripMeta d0) "department" = some dep := by
        simp [getReqStr, hsg]
      have hfd := faculty_validate_department _ _ hval
      rw [hreq] at hfd
      injection hfd with h2
      exact h2.symm

/-- Claim C9, witness: on a concrete store the CSE filter returns the CSE
record, whose department is CSE. -/
theorem C9_witness : facSharma.department = "CSE" :=
  C9_faculty_exact_match (some stFac) "CSE" [facSharma] (by decide) (by decide)
    facSharma (by simp)

/-- Claim C10: an empty-string value for a string filter parameter
behaves exactly as an absent parameter, for listFaculty department,
listEvents category, listAdmissions status, and the program, course_code
and exam_type parameters of listPyqs. -/
theorem C10_empty_string_is_absent :
    (∀ db : Option Store, list_faculty_endpoint db (some "") = list_faculty_endpoint db Option.none)
    ∧ (∀ db : Option Store, list_events_endpoint db (some "") = list_events_endpoint db Option.none)
    ∧ (∀ db : Option Store,
        list_admissions_endpoint db (some "") = list_admissions_endpoint db Option.none)
    ∧ (∀ (db : Option Store) (d : Option String) (sem : Option Int) (cc : Option String)
        (y : Option Int) (et srch : Option String),
        list_pyqs_endpoint db (some "") d sem cc y et srch =
          list_pyqs_endpoint db Option.none d sem cc y et srch)
    ∧ (∀ (db : Option Store) (p d : Option String) (sem : Option Int) (y : Option Int)
        (et srch : Option String),
        list_pyqs_endpoint db p d sem (some "") y et srch =
          list_pyqs_endpoint db p d sem Option.none y et srch)
    ∧ (∀ (db : Option Store) (p d : Option String) (sem : Option Int) (cc : Option String)
        (y : Option Int) (srch : Option String),
        list_pyqs_endpoint db p d sem cc y (some "") srch =
          list_pyqs_endpoint db p d sem cc y Option.none srch) := by
  refine ⟨fun db => rfl, fun db => rfl, fun db => rfl,
    fun db d sem cc y et srch => rfl,
    fun db p d sem y et srch => rfl,
    fun db p d sem cc y srch => rfl⟩
